import Mathlib

/-!
Verification development for the `github_push_doctor` repository
(`github_push_assistant.py` and `github_graphql_collector.py`).

The Python sources are shallowly embedded below.  Pure helpers become Lean
functions on `String`/`List`; the effectful `main` workflow becomes a
function from an explicit environment (the results of external commands,
the operator's answers at prompts, and the relevant filesystem state) to
the finite trace of effects it performs, together with its termination
outcome.  Strings are modelled by Lean `String`; Python `str.strip` and the
substring test `in` are modelled character-wise on `String.data`.
-/

/-- Python `str.strip()`: remove leading and trailing whitespace
(modelled with `Char.isWhitespace`). -/
def pyStrip (s : String) : String :=
  String.mk (((s.data.dropWhile Char.isWhitespace).reverse.dropWhile
    Char.isWhitespace).reverse)

/-- Auxiliary for `pyIn`: does `needle` occur as a contiguous run in the
character list? -/
def pyInAux (needle : List Char) : List Char → Bool
  | [] => needle.isEmpty
  | c :: rest => List.isPrefixOf needle (c :: rest) || pyInAux needle rest

/-- Python's substring test `needle in hay` on strings. -/
def pyIn (needle hay : String) : Bool :=
  pyInAux needle.data hay.data

/-- Split a character list at `/` separators. -/
def splitSlash : List Char → List (List Char)
  | [] => [[]]
  | c :: rest =>
    let r := splitSlash rest
    if c = '/' then [] :: r
    else
      match r with
      | [] => [[c]]
      | seg :: segs => (c :: seg) :: segs

/-- Python `pathlib.Path(p).name`: the last non-empty path segment. -/
def pathName (p : String) : String :=
  String.mk (((((splitSlash p.data).filter
    (fun seg => seg ≠ [])).getLast?).getD []))

/-- Lookup in the configuration dictionary (`cfg.get(k)`), modelled as an
insertion-ordered association list like a Python `dict`. -/
def lookupStr (cfg : List (String × String)) (k : String) : Option String :=
  (cfg.find? (fun p => p.1 == k)).map (fun p => p.2)

/-- `cfg[k] = v` on the association-list model of a Python `dict`:
replace in place if the key is present, else append. -/
def upsert (cfg : List (String × String)) (k v : String) :
    List (String × String) :=
  if (cfg.find? (fun p => p.1 == k)).isSome then
    cfg.map (fun p => if p.1 == k then (k, v) else p)
  else cfg ++ [(k, v)]

/-- Outcome of one `subprocess.run` invocation with output captured:
exit status and the raw captured streams (`text=True`, so strings). -/
structure ProcResult where
  exitCode : Nat
  stdout : String
  stderr : String
deriving DecidableEq

/-- `subprocess.run(cmd, capture_output=True, text=True, check=check)`:
with `check` set, a nonzero exit raises `CalledProcessError` (modelled as
the `error` branch, carrying the result the exception wraps). -/
def subprocessRun (check : Bool) (r : ProcResult) :
    Except ProcResult ProcResult :=
  if check ∧ r.exitCode ≠ 0 then Except.error r else Except.ok r

/-- `run_command` (github_push_assistant.py lines 38-60), value behaviour:
runs the command, and on the normal path returns
`(True, stdout.strip(), stderr.strip())`; a `CalledProcessError` is caught
and turned into `(False, e.stdout, e.stderr)` (note: *not* stripped).
The `Except` layer records whether an exception escapes the function;
`run_command` itself never lets one escape. -/
def run_command (check : Bool) (r : ProcResult) :
    Except String (Bool × String × String) :=
  match subprocessRun check r with
  | Except.ok res => Except.ok (true, pyStrip res.stdout, pyStrip res.stderr)
  | Except.error e => Except.ok (false, e.stdout, e.stderr)

/-- `true` iff the embedded Python call returned normally (raised nothing). -/
def neverRaised {α : Type} : Except String α → Bool
  | Except.ok _ => true
  | Except.error _ => false

/-- The persisted YAML configuration file name (`CONFIG_FILE`). -/
def CONFIG_FILE : String := "github_push_config.yaml"

/-- The tee log file name (`LOG_FILE`). -/
def LOG_FILE : String := "github_push_assistant.log"

/-- State of the on-disk configuration store as `load_config` sees it:
absent; present and parsed by `yaml.safe_load` (to `none` for an empty /
null document, or to a dictionary); or present but malformed, in which
case `yaml.safe_load` raises a `YAMLError` carrying a parser message. -/
inductive StoreState
  | missing
  | parsed (cfg : Option (List (String × String)))
  | malformed (msg : String)
deriving DecidableEq

/-- `load_config` (lines 121-127): if PyYAML is available and the file
exists, parse it (`yaml.safe_load(f) or {}`); otherwise return `{}`.
A malformed file makes `yaml.safe_load` raise, and `load_config` has no
handler, so the exception escapes (the `error` branch). -/
def load_config (pyYaml : Bool) (store : StoreState) :
    Except String (List (String × String)) :=
  if pyYaml then
    match store with
    | StoreState.missing => Except.ok []
    | StoreState.parsed none => Except.ok []
    | StoreState.parsed (some cfg) => Except.ok cfg
    | StoreState.malformed m => Except.error m
  else Except.ok []

/-- `get_input` (lines 62-67): with a truthy (non-empty) default, return
the stripped response unless it is empty, in which case return the
default; with no / empty default, return the stripped response. -/
def get_input (default : Option String) (resp : String) : String :=
  match default with
  | some d =>
    if d = "" then pyStrip resp
    else if pyStrip resp = "" then d else pyStrip resp
  | none => pyStrip resp

/-- A Python value decoded from JSON, as far as the collector needs it. -/
inductive PyJson
  | null
  | bool (b : Bool)
  | num (n : Int)
  | str (s : String)
  | arr (l : List PyJson)
  | obj (l : List (String × PyJson))

/-- Python truthiness of a decoded JSON value (`if data:`). -/
def PyJson.truthy : PyJson → Bool
  | PyJson.null => false
  | PyJson.bool b => b
  | PyJson.num n => n != 0
  | PyJson.str s => s ≠ ""
  | PyJson.arr l => !l.isEmpty
  | PyJson.obj l => !l.isEmpty

/-- `run_gh_graphql` (github_graphql_collector.py lines 12-20): run the
`gh api graphql` command (its result `r` is supplied by the environment);
on a nonzero exit print a message and return `None`; otherwise return
`json.loads(result.stdout)`.  The JSON decoder (`loads`) is the external
`json` library, supplied as a parameter; it may raise on bad input, which
`run_gh_graphql` does not catch. -/
def run_gh_graphql (loads : String → Except String PyJson)
    (r : ProcResult) : Except String (Option PyJson) :=
  if r.exitCode ≠ 0 then Except.ok none
  else (loads r.stdout).map some

/-- `collect_repo_data` (lines 22-46), modelled as a transformer of the
on-disk data file `github_repo_data.json` (`dataFile` is its prior
content, `none` if absent): the file is rewritten with `json.dump(data)`
only when the query returned truthy data, and is left unchanged
otherwise.  `dump` is the external `json.dumps` serialiser. -/
def collect_repo_data (loads : String → Except String PyJson)
    (dump : PyJson → String) (r : ProcResult)
    (dataFile : Option String) : Except String (Option String) :=
  match run_gh_graphql loads r with
  | Except.error e => Except.error e
  | Except.ok none => Except.ok dataFile
  | Except.ok (some d) =>
    if d.truthy then Except.ok (some (dump d)) else Except.ok dataFile

/-- One parsed commit of the `git log` pretty format used by
`generate_d3_html`: abbreviated hash `%h`, author `%an`, date `%ad`,
subject `%s`. -/
structure CommitRecord where
  hash : String
  author : String
  date : String
  message : String
deriving DecidableEq

/-- The text `git log --pretty=format:...` emits for one commit, after the
trailing-comma fixup: `{"hash":"…","author":"…","date":"…","message":"…"}`. -/
def renderRecord (r : CommitRecord) : String :=
  "\x7b\"hash\":\"" ++ r.hash ++ "\",\"author\":\"" ++ r.author ++
    "\",\"date\":\"" ++ r.date ++ "\",\"message\":\"" ++ r.message ++ "\"\x7d"

/-- Output of the `git log … | sed '$ s/,$//'` pipeline in
`generate_d3_html` (line 159) for the given commits in the order `git log`
produces them (most recent first): one record per line, comma-separated,
with the final comma removed by `sed`. -/
def gitLogSedOutput (entries : List CommitRecord) : String :=
  String.intercalate ",\n" (entries.map renderRecord)

/-- Line 161: `commits_json = f"[{log_json}]" if success else "[]"`. -/
def commitsJsonStr (success : Bool) (logJson : String) : String :=
  if success then "[" ++ logJson ++ "]" else "[]"

/-- The JSON-array text listing the given records in the given order. -/
def jsonArrayOf (l : List CommitRecord) : String :=
  "[" ++ gitLogSedOutput l ++ "]"

/-- Follows the spec's words (§4.5): the extractor "reverses the sequence
to chronological order"; stated as a list transformer for comparison with
what the source emits. -/
def specExtractHistory (entries : List CommitRecord) : List CommitRecord :=
  entries.reverse

/-- The spec's §8 example entries, in reverse-chronological input order. -/
def recA1 : CommitRecord :=
  { hash := "a1", author := "X", date := "2024-01-02", message := "fix" }

/-- The older of the spec's §8 example entries. -/
def recB2 : CommitRecord :=
  { hash := "b2", author := "Y", date := "2024-01-01", message := "init" }

/-- `FIRST_RUN_CAST` (line 22): the fixed recording file name. -/
def FIRST_RUN_CAST : String := "github_push_assistant_first_run.cast"

/-- The recording file name the program uses, as a function of the set of
pre-existing recording files: `asciinema_first_run` (lines 193-195) always
records to the constant `FIRST_RUN_CAST` and never inspects existing
files, so this function ignores its argument. -/
def allocatedCastName (_existing : List String) : String :=
  FIRST_RUN_CAST

/-- Console colors used by `log` (class `Colors`); `log` prints the
message with the color and appends the plain message to the log file. -/
inductive Color
  | green
  | yellow
  | red
  | blue
  | bold
deriving DecidableEq

/-- Every external command line `main` and its helpers construct,
one constructor per construction site in the source.  `Cmd.render` gives
the exact command string handed to `run_command`. -/
inductive Cmd
  | gitVersion
  | ghVersion
  | installGh (apt : Bool)
  | installAsciinema (apt : Bool)
  | installDocker (apt : Bool)
  | pipInstallPyYAML (pyExe : String)
  | dockerBuild (tag : String) (path : String)
  | gitInit
  | gitBranchMain
  | ghAuthStatus
  | ghAuthLogin
  | ghRepoCreate (name : String)
  | gitAddAll
  | gitCommit (msg : String)
  | gitPushOriginMain
  | gitLogPretty
  | asciinemaRec
deriving DecidableEq

/-- The exact command-line string of each command, as built in the source
(with `shutil.which("apt")` choosing apt vs yum for the installs). -/
def Cmd.render : Cmd → String
  | Cmd.gitVersion => "git --version"
  | Cmd.ghVersion => "gh --version"
  | Cmd.installGh apt =>
    if apt then "sudo apt install gh -y" else "sudo yum install gh -y"
  | Cmd.installAsciinema apt =>
    if apt then "sudo apt install asciinema -y"
    else "sudo yum install asciinema -y"
  | Cmd.installDocker apt =>
    if apt then "sudo apt install docker.io -y"
    else "sudo yum install docker -y"
  | Cmd.pipInstallPyYAML pyExe => pyExe ++ " -m pip install --upgrade PyYAML"
  | Cmd.dockerBuild tag path => "docker build -t " ++ tag ++ " " ++ path
  | Cmd.gitInit => "git init"
  | Cmd.gitBranchMain => "git branch -M main"
  | Cmd.ghAuthStatus => "gh auth status"
  | Cmd.ghAuthLogin => "gh auth login"
  | Cmd.ghRepoCreate name =>
    "gh repo create " ++ name ++ " --source=. --public --push"
  | Cmd.gitAddAll => "git add ."
  | Cmd.gitCommit msg => "git commit -m \"" ++ msg ++ "\""
  | Cmd.gitPushOriginMain => "git push origin main"
  | Cmd.gitLogPretty =>
    "git log --pretty=format:\x27\x7b\"hash\":\"%h\",\"author\":\"%an\",\"date\":\"%ad\",\"message\":\"%s\"\x7d,\x27 | sed \x27$ s/,$//\x27"
  | Cmd.asciinemaRec =>
    "asciinema rec -y " ++ FIRST_RUN_CAST ++
      " --command \x27python3 github_push_assistant.py\x27"

/-- One observable effect of a workflow run:
`unlinkLog` is `Path(LOG_FILE).unlink()` (main, line 199); `logMsg` is one
`log(msg, color)` call (console print plus append of `msg` to the log
file); `cmd` is one external command execution; `writeFile` is an
open-for-write of the named file; `mkdirDir` a directory creation. -/
inductive Ev
  | unlinkLog
  | logMsg (msg : String) (color : Option Color)
  | cmd (c : Cmd)
  | writeFile (path : String)
  | mkdirDir (path : String)
deriving DecidableEq

/-- The command executed by an event, if it is a command event. -/
def evCmd : Ev → Option Cmd
  | Ev.cmd c => some c
  | _ => none

/-- The commands a trace executes, in order. -/
def cmdsOf (l : List Ev) : List Cmd :=
  l.filterMap evCmd

/-- Trace semantics of `run_command(cmd)` with output captured,
`check=True` and the given `tee` (every call in the source leaves both at
their `True` defaults or passes `tee=True`): log the command line in
blue, execute, then tee the captured output — stripped stdout (if
non-empty) and stripped stderr (red, if non-empty) on success; raw
`e.stdout` (yellow) and `e.stderr` (red) unconditionally on failure.
Returns the events together with `(success, output, error)`. -/
def runCmdEvents (r : ProcResult) (c : Cmd) (tee : Bool) :
    List Ev × Bool × String × String :=
  let pre := [Ev.logMsg ("$ " ++ Cmd.render c) (some Color.blue), Ev.cmd c]
  if r.exitCode = 0 then
    let out := pyStrip r.stdout
    let err := pyStrip r.stderr
    (pre ++ (if tee = true ∧ out ≠ "" then [Ev.logMsg out none] else [])
        ++ (if tee = true ∧ err ≠ "" then [Ev.logMsg err (some Color.red)] else []),
      true, out, err)
  else
    (pre ++ (if tee = true then
        [Ev.logMsg r.stdout (some Color.yellow),
         Ev.logMsg r.stderr (some Color.red)] else []),
      false, r.stdout, r.stderr)

/-- The environment one workflow run executes against: results of external
commands, which executables `shutil.which` finds, whether `import yaml`
succeeds (before and after the pip install), the configuration store, the
relevant filesystem state, and the operator's answers at each prompt. -/
structure Env where
  run : Cmd → ProcResult
  whichApt : Bool
  whichAsciinema : Bool
  whichDocker : Bool
  pyYaml0 : Bool
  pyYaml1 : Bool
  pyExe : String
  store : StoreState
  cwd : String
  logFileExists : Bool
  gitDirExists : Bool
  dockerfileExists : Bool
  projectPathResp : String
  dockerConfirm : Bool
  authLoginConfirm : Bool
  repoNameResp : String
  commitMsgResp : String
  asciinemaConfirm : Bool

/-- Whether the command exits 0 (the `success` its `run_command` returns,
since every call keeps `check=True`). -/
def cmdOk (env : Env) (c : Cmd) : Bool :=
  (env.run c).exitCode == 0

/-- Events of one `run_command(c)` call under `env` (tee on). -/
def runEvs (env : Env) (c : Cmd) : List Ev :=
  (runCmdEvents (env.run c) c true).1

/-- The `output` component `run_command(c)` returns under `env`
(stripped stdout on success, raw `e.stdout` on failure). -/
def runOut (env : Env) (c : Cmd) : String :=
  (runCmdEvents (env.run c) c true).2.2.1

/-- Control flow after a model step: continue, `sys.exit(code)`, or an
uncaught Python exception carrying its message. -/
inductive WFlow
  | cont
  | exited (code : Nat)
  | raised (msg : String)
deriving DecidableEq

/-- Events of `save_config(cfg)`: rewrite `CONFIG_FILE`, then log. -/
def saveConfigEvents : List Ev :=
  [Ev.writeFile CONFIG_FILE,
   Ev.logMsg ("Saved config to " ++ CONFIG_FILE) (some Color.green)]

/-- gh CLI part of `check_and_install_dependencies` (lines 86-92). -/
def ghPart (env : Env) : List Ev :=
  if cmdOk env Cmd.ghVersion then
    runEvs env Cmd.ghVersion ++
      [Ev.logMsg ("GitHub CLI detected: " ++ runOut env Cmd.ghVersion)
        (some Color.green)]
  else
    runEvs env Cmd.ghVersion ++
      [Ev.logMsg "GitHub CLI not found. Installing..." (some Color.yellow)] ++
      runEvs env (Cmd.installGh env.whichApt)

/-- asciinema part of `check_and_install_dependencies` (lines 94-99). -/
def ascPart (env : Env) : List Ev :=
  if env.whichAsciinema then [Ev.logMsg "Asciinema detected." (some Color.green)]
  else
    [Ev.logMsg "Asciinema not found. Installing..." (some Color.yellow)] ++
      runEvs env (Cmd.installAsciinema env.whichApt)

/-- Docker part of `check_and_install_dependencies` (lines 101-106). -/
def dockerToolPart (env : Env) : List Ev :=
  if env.whichDocker then [Ev.logMsg "Docker detected." (some Color.green)]
  else
    [Ev.logMsg "Docker not found. Installing..." (some Color.yellow)] ++
      runEvs env (Cmd.installDocker env.whichApt)

/-- PyYAML part of `check_and_install_dependencies` (lines 108-119): if
the first `import yaml` fails, pip-install and import again; a second
failure is an uncaught `ImportError`. -/
def pyPart (env : Env) : List Ev × WFlow :=
  if env.pyYaml0 then
    ([Ev.logMsg "PyYAML detected." (some Color.green)], WFlow.cont)
  else
    ([Ev.logMsg "PyYAML not found. Installing..." (some Color.yellow)] ++
        runEvs env (Cmd.pipInstallPyYAML env.pyExe),
      if env.pyYaml1 then WFlow.cont
      else WFlow.raised "No module named \x27yaml\x27")

/-- `check_and_install_dependencies` (lines 77-119): the git probe is a
hard requirement — on failure, log in red and `sys.exit(1)`; the gh,
asciinema and Docker probes fall through to installation attempts; then
the PyYAML import. -/
def check_and_install_dependencies (env : Env) : List Ev × WFlow :=
  if cmdOk env Cmd.gitVersion then
    (runEvs env Cmd.gitVersion ++
        [Ev.logMsg ("Git detected: " ++ runOut env Cmd.gitVersion)
          (some Color.green)] ++
        ghPart env ++ ascPart env ++ dockerToolPart env ++ (pyPart env).1,
      (pyPart env).2)
  else
    (runEvs env Cmd.gitVersion ++
        [Ev.logMsg "Git not found. Please install git first." (some Color.red)],
      WFlow.exited 1)

/-- Whether `"Logged in" in gh_status` holds for the output `run_command
("gh auth status")` returned (main, lines 221-222). -/
def authSeen (env : Env) : Bool :=
  pyIn "Logged in" (runOut env Cmd.ghAuthStatus)

/-- Authentication step of `main` (lines 221-228): returns its events and
whether the workflow proceeds (`false` means `sys.exit(1)`). -/
def authSeg (env : Env) : List Ev × Bool :=
  let evs := runEvs env Cmd.ghAuthStatus
  if authSeen env then (evs, true)
  else if env.authLoginConfirm then
    (evs ++ [Ev.logMsg "GitHub CLI not authenticated." (some Color.red)] ++
        runEvs env Cmd.ghAuthLogin, true)
  else
    (evs ++ [Ev.logMsg "GitHub CLI not authenticated." (some Color.red),
        Ev.logMsg "Authentication required to push. Exiting." (some Color.red)],
      false)

/-- `docker_prompt_and_build` (lines 135-153): on operator confirmation,
write a Dockerfile if absent, build, and persist the tag. -/
def docker_prompt_and_build (env : Env) (cfg : List (String × String))
    (projectPath : String) : List Ev × List (String × String) :=
  if env.dockerConfirm then
    let tag := (lookupStr cfg "docker_tag").getD "github_push_assistant"
    ([Ev.logMsg ("Building Docker image \x27" ++ tag ++ "\x27...")
        (some Color.yellow)] ++
      (if env.dockerfileExists then []
        else [Ev.writeFile (projectPath ++ "/Dockerfile")]) ++
      runEvs env (Cmd.dockerBuild tag projectPath) ++
      [Ev.logMsg ("Docker image \x27" ++ tag ++
          "\x27 ready. Run with:\ndocker run -it -v " ++ projectPath ++
          ":/workspace " ++ tag) (some Color.green)] ++
      saveConfigEvents,
      upsert cfg "docker_tag" tag)
  else ([], cfg)

/-- Repository-initialization step of `main` (lines 213-219): when no
`.git` directory exists at the project path, run `git init` followed by
`git branch -M main`; otherwise skip. -/
def initRepoStep (env : Env) : List Ev :=
  if env.gitDirExists then [Ev.logMsg "Git repo exists." (some Color.green)]
  else
    [Ev.logMsg "Initializing new git repo..." (some Color.yellow)] ++
      runEvs env Cmd.gitInit ++ runEvs env Cmd.gitBranchMain

/-- Trace of `generate_d3_html` (lines 155-191): create the visualization
directory, run the `git log | sed` pipeline, write `commits.html`, log. -/
def generate_d3_html_events (env : Env) (projectPath : String) : List Ev :=
  [Ev.mkdirDir (projectPath ++ "/visualization")] ++
    runEvs env Cmd.gitLogPretty ++
    [Ev.writeFile (projectPath ++ "/visualization/commits.html"),
     Ev.logMsg ("D3.js commit visualization generated at " ++ projectPath ++
        "/visualization/commits.html") (some Color.green)]

/-- `asciinema_first_run` (lines 193-195): on confirmation, record to the
fixed `FIRST_RUN_CAST` file. -/
def asciinema_first_run (env : Env) : List Ev :=
  if env.asciinemaConfirm then runEvs env Cmd.asciinemaRec else []

/-- The warning `main` logs when `gh repo create` fails (lines 234-236). -/
def createFailEvents (ok : Bool) : List Ev :=
  if ok then []
  else [Ev.logMsg "Remote repo may already exist." (some Color.red)]

/-- Tail of `main` after the authentication step succeeds (lines
230-254): repository creation, staging, commit, the single push, the
visualization, and the optional recording. -/
def restSeg (env : Env) (cfg : List (String × String))
    (projectPath : String) : List Ev :=
  let defaultRepo := (lookupStr cfg "github_repo_name").getD (pathName projectPath)
  let repoName := get_input (some defaultRepo) env.repoNameResp
  let cfg3 := upsert cfg "github_repo_name" repoName
  let createOk := cmdOk env (Cmd.ghRepoCreate repoName)
  let defaultMsg :=
    (lookupStr cfg3 "commit_message").getD "Initial commit via github_push_assistant"
  let commitMsg := get_input (some defaultMsg) env.commitMsgResp
  saveConfigEvents ++
    runEvs env (Cmd.ghRepoCreate repoName) ++
    createFailEvents createOk ++
    [Ev.logMsg "➕ Staging all files..." (some Color.yellow)] ++
    runEvs env Cmd.gitAddAll ++
    saveConfigEvents ++
    runEvs env (Cmd.gitCommit commitMsg) ++
    [Ev.logMsg "🌐 Pushing changes..." (some Color.yellow)] ++
    runEvs env Cmd.gitPushOriginMain ++
    generate_d3_html_events env projectPath ++
    asciinema_first_run env ++
    [Ev.logMsg "✅ Workflow complete with D3.js visualization." (some Color.green)]

/-- Part of `main` after `check_and_install_dependencies` returns
(lines 204-254): load the configuration (PyYAML is available here —
both surviving dependency paths set it up), prompt for the project path,
persist, Docker prompt, repository initialization, authentication, and —
if authentication passes — the rest of the workflow. -/
def postDeps (env : Env) : List Ev × WFlow :=
  match load_config true env.store with
  | Except.error m => ([], WFlow.raised m)
  | Except.ok cfg0 =>
    let loadEvs : List Ev :=
      match env.store with
      | StoreState.parsed _ =>
        [Ev.logMsg ("Loaded config from " ++ CONFIG_FILE) (some Color.green)]
      | _ => []
    let defaultPath := (lookupStr cfg0 "project_path").getD env.cwd
    let projectPath := get_input (some defaultPath) env.projectPathResp
    let cfg1 := upsert cfg0 "project_path" projectPath
    let dockerRes := docker_prompt_and_build env cfg1 projectPath
    let head := loadEvs ++ saveConfigEvents ++
      [Ev.logMsg ("Working in: " ++ projectPath) (some Color.green)] ++
      dockerRes.1 ++ initRepoStep env ++ (authSeg env).1
    if (authSeg env).2 then
      (head ++ restSeg env dockerRes.2 projectPath, WFlow.cont)
    else (head, WFlow.exited 1)

/-- The initial `Path(LOG_FILE).unlink()` of `main` (lines 198-199),
performed whenever the log file from a previous run exists. -/
def unlinkStep (env : Env) : List Ev :=
  if env.logFileExists then [Ev.unlinkLog] else []

/-- The body of `main` after the initial log-file deletion: banner,
dependency check, then `postDeps` unless the dependency check ended the
process. -/
def mainBodyRest (env : Env) : List Ev × WFlow :=
  let banner :=
    [Ev.logMsg "🔧 GitHub Push Assistant with D3.js & Asciinema" (some Color.bold)]
  let d := check_and_install_dependencies env
  match d.2 with
  | WFlow.cont =>
    let p := postDeps env
    (banner ++ d.1 ++ p.1, p.2)
  | fl => (banner ++ d.1, fl)

/-- How a run ends: fell off the end of `main` (process exit 0), or a
`sys.exit(code)` / the top-level handler's `sys.exit(1)`. -/
inductive Outcome
  | completed
  | exitedWith (code : Nat)
deriving DecidableEq

/-- A whole invocation of the script: `main()` under the `__main__`
try/except — an uncaught exception is logged
(`Unexpected error: {e}`) and turns into exit code 1; `sys.exit` codes
pass through (SystemExit is not an `Exception`). -/
def mainRun (env : Env) : List Ev × Outcome :=
  let b := mainBodyRest env
  match b.2 with
  | WFlow.cont => (unlinkStep env ++ b.1, Outcome.completed)
  | WFlow.exited n => (unlinkStep env ++ b.1, Outcome.exitedWith n)
  | WFlow.raised m =>
    (unlinkStep env ++ b.1 ++
        [Ev.logMsg ("Unexpected error: " ++ m) (some Color.red)],
      Outcome.exitedWith 1)

/-- The effect trace of one invocation. -/
def mainEvents (env : Env) : List Ev :=
  (mainRun env).1

/-- The termination outcome of one invocation. -/
def mainOutcome (env : Env) : Outcome :=
  (mainRun env).2

/-- Whether the store parses (i.e. `load_config` does not raise). -/
def storeOk (env : Env) : Bool :=
  match env.store with
  | StoreState.malformed _ => false
  | _ => true

/-- Whether a run gets as far as the push step: git probe succeeded, the
PyYAML import eventually succeeded, the store parsed, and the
authentication step did not end the process. -/
def reachesPush (env : Env) : Bool :=
  cmdOk env Cmd.gitVersion && (env.pyYaml0 || env.pyYaml1) && storeOk env &&
    (authSeen env || env.authLoginConfirm)

/-- Follows the spec's words (§3 Session: "default branch name (non-empty
string, default `main`)"): the default branch a Session would carry.  The
source never reads any such key; this definition exists only to compare
the spec's wording with the command the code runs. -/
def specSessionDefaultBranch (cfg : List (String × String)) : String :=
  (lookupStr cfg "default_branch").getD "main"

/-- A command oracle where every command exits 0 with empty output, except
that `gh auth status` reports a logged-in session. -/
def okRun : Cmd → ProcResult
  | Cmd.ghAuthStatus =>
    { exitCode := 0, stdout := "Logged in to github.com", stderr := "" }
  | _ => { exitCode := 0, stdout := "", stderr := "" }

/-- A benign baseline environment: every tool present, every command
succeeds, no stored configuration, `.git` already present, operator
declines the optional Docker and recording prompts. -/
def baseEnv : Env where
  run := okRun
  whichApt := true
  whichAsciinema := true
  whichDocker := true
  pyYaml0 := true
  pyYaml1 := true
  pyExe := "/usr/bin/python3"
  store := StoreState.missing
  cwd := "/home/user/proj"
  logFileExists := false
  gitDirExists := true
  dockerfileExists := true
  projectPathResp := ""
  dockerConfirm := false
  authLoginConfirm := false
  repoNameResp := ""
  commitMsgResp := ""
  asciinemaConfirm := false

/-- Oracle for the C1 counterexample: identical to `okRun` except that
the push exits nonzero. -/
def pushFailRun : Cmd → ProcResult
  | Cmd.gitPushOriginMain =>
    { exitCode := 1, stdout := "",
      stderr := "error: failed to push some refs" }
  | c => okRun c

/-- C1 counterexample environment: a run in which pushing the configured
branch fails and everything else succeeds. -/
def envC1 : Env :=
  { baseEnv with run := pushFailRun }

/-- C3 counterexample environment: no `.git` directory, and a stored
configuration that carries a `default_branch` entry different from
`main`. -/
def envC3 : Env :=
  { baseEnv with
      store := StoreState.parsed (some [("default_branch", "develop")]),
      gitDirExists := false }

/-- Oracle for the C6 counterexample: `gh --version` fails, the rest
behaves like `okRun`. -/
def ghFailRun : Cmd → ProcResult
  | Cmd.ghVersion =>
    { exitCode := 127, stdout := "", stderr := "gh: command not found" }
  | c => okRun c

/-- C6 counterexample environment: git present, but the gh CLI and
asciinema are absent; the operator confirms the recording prompt. -/
def envC6 : Env :=
  { baseEnv with
      run := ghFailRun,
      whichAsciinema := false,
      asciinemaConfirm := true }

/-- C8 counterexample environment: a log file from a previous run exists. -/
def envC8 : Env :=
  { baseEnv with logFileExists := true }

/-- An environment in which every external command fails — in particular
the hard-required git probe. -/
def envGitFail : Env :=
  { baseEnv with
      run := fun _ => { exitCode := 127, stdout := "", stderr := "" } }

/-- External JSON decoder that fails (bad document), for the C9 witness. -/
def loadsW : String → Except String PyJson :=
  fun _ => Except.error "Expecting value: line 1 column 1 (char 0)"

/-- External JSON serialiser for the C9 witness. -/
def dumpW : PyJson → String :=
  fun _ => ""

/-- A failed `gh api graphql` invocation, for the C9 witness. -/
def resW : ProcResult :=
  { exitCode := 1, stdout := "", stderr := "gh: Not Found (HTTP 404)" }

theorem cmdsOf_append (a b : List Ev) :
    cmdsOf (a ++ b) = cmdsOf a ++ cmdsOf b := by
  simp [cmdsOf]

theorem cmdsOf_runEvs (env : Env) (c : Cmd) :
    cmdsOf (runEvs env c) = [c] := by
  unfold runEvs runCmdEvents
  split_ifs <;> simp [cmdsOf, evCmd]

theorem cmdsOf_nil : cmdsOf [] = [] := rfl

theorem cmdsOf_cons_logMsg (m : String) (co : Option Color) (l : List Ev) :
    cmdsOf (Ev.logMsg m co :: l) = cmdsOf l := by
  simp [cmdsOf, evCmd]

theorem cmdsOf_cons_cmd (c : Cmd) (l : List Ev) :
    cmdsOf (Ev.cmd c :: l) = c :: cmdsOf l := by
  simp [cmdsOf, evCmd]

theorem cmdsOf_cons_writeFile (p : String) (l : List Ev) :
    cmdsOf (Ev.writeFile p :: l) = cmdsOf l := by
  simp [cmdsOf, evCmd]

theorem cmdsOf_cons_mkdir (p : String) (l : List Ev) :
    cmdsOf (Ev.mkdirDir p :: l) = cmdsOf l := by
  simp [cmdsOf, evCmd]

theorem cmdsOf_cons_unlink (l : List Ev) :
    cmdsOf (Ev.unlinkLog :: l) = cmdsOf l := by
  simp [cmdsOf, evCmd]

theorem pyStrip_eq_empty {s : String}
    (h : ∀ c ∈ s.data, c.isWhitespace = true) : pyStrip s = "" := by
  unfold pyStrip
  have h1 : s.data.dropWhile Char.isWhitespace = [] :=
    List.dropWhile_eq_nil_iff.mpr h
  rw [h1]
  rfl

/-- C2 counterexample: on a corrupted (unparseable-YAML) store,
`load_config` does not return an empty configuration — the parser's
exception escapes, contradicting "load() never raises: … a
corrupted/unreadable store … yield[s] an empty Session". -/
theorem claim_C2_counterexample :
    load_config true (StoreState.malformed "mapping values are not allowed here") =
      Except.error "mapping values are not allowed here" ∧
    neverRaised (load_config true
      (StoreState.malformed "mapping values are not allowed here")) = false :=
  ⟨rfl, rfl⟩

/-- C2 amended: a missing store (or absent PyYAML) yields an empty
configuration without error, and a store that parses is returned as-is
(empty for a null document); but a malformed store makes `load_config`
raise the parser error instead of yielding an empty Session. -/
theorem claim_C2_amended (m : String) (cfg : List (String × String)) :
    load_config true StoreState.missing = Except.ok [] ∧
    load_config false StoreState.missing = Except.ok [] ∧
    load_config true (StoreState.parsed none) = Except.ok [] ∧
    load_config true (StoreState.parsed (some cfg)) = Except.ok cfg ∧
    load_config true (StoreState.malformed m) = Except.error m :=
  ⟨rfl, rfl, rfl, rfl, rfl⟩

/-- C4 counterexample: for the spec's own example input (newest first),
the emitted commits array is not the chronological (reversed) sequence
the claim requires — `generate_d3_html` embeds the `git log` output
order unchanged. -/
theorem claim_C4_counterexample :
    commitsJsonStr true (gitLogSedOutput [recA1, recB2]) ≠
      jsonArrayOf (specExtractHistory [recA1, recB2]) := by
  decide

/-- C4 amended: the Commit History Extractor emits the records in the
order the version-control query produced them (reverse-chronological,
newest first) — no reversal occurs; on a failed query the array is
empty.  Order matters: on the spec's example the two orders differ. -/
theorem claim_C4_amended (entries : List CommitRecord) (s : String) :
    commitsJsonStr true (gitLogSedOutput entries) = jsonArrayOf entries ∧
    commitsJsonStr false s = "[]" ∧
    jsonArrayOf [recA1, recB2] ≠ jsonArrayOf [recB2, recA1] :=
  ⟨rfl, rfl, by decide⟩

/-- C5 counterexample: on a nonzero exit (with `check` at its default),
`run_command` returns the captured streams untrimmed, contradicting
"together with the captured, trimmed stdout and stderr". -/
theorem claim_C5_counterexample :
    run_command true { exitCode := 1, stdout := "out\n", stderr := "err\n" } =
      Except.ok (false, "out\n", "err\n") ∧
    pyStrip "out\n" ≠ "out\n" :=
  ⟨rfl, by decide⟩

/-- C5 amended: `run_command` never lets an exception escape; with
`check` enabled the success flag is true exactly when the exit status is
zero, and the returned stdout/stderr are trimmed on the zero-exit path
but raw (untrimmed) on the nonzero-exit path. -/
theorem claim_C5_amended (check : Bool) (r : ProcResult) :
    neverRaised (run_command check r) = true ∧
    run_command true r = Except.ok (decide (r.exitCode = 0),
      if r.exitCode = 0 then pyStrip r.stdout else r.stdout,
      if r.exitCode = 0 then pyStrip r.stderr else r.stderr) := by
  constructor
  · unfold run_command subprocessRun
    split <;> rfl
  · unfold run_command subprocessRun
    by_cases h : r.exitCode = 0 <;> simp [h]

/-- C7 counterexample: with the fixed recording file already present, the
name the program records to coincides with an existing file,
contradicting "the recording-slot name allocated for a run never
coincides with any existing file". -/
theorem claim_C7_counterexample :
    allocatedCastName [FIRST_RUN_CAST] ∈ [FIRST_RUN_CAST] := by
  decide

/-- C7 amended: the recording name is the fixed constant
`github_push_assistant_first_run.cast` regardless of which files exist
(no indexed allocation), and the optional recording step runs exactly
that one command when confirmed. -/
theorem claim_C7_amended (existing : List String) (env : Env) :
    allocatedCastName existing = FIRST_RUN_CAST ∧
    cmdsOf (asciinema_first_run env) =
      (if env.asciinemaConfirm = true then [Cmd.asciinemaRec] else []) ∧
    Cmd.render Cmd.asciinemaRec =
      "asciinema rec -y " ++ FIRST_RUN_CAST ++
        " --command \x27python3 github_push_assistant.py\x27" := by
  refine ⟨rfl, ?_, rfl⟩
  unfold asciinema_first_run
  split_ifs with h
  · exact cmdsOf_runEvs env Cmd.asciinemaRec
  · rfl

/-- C9: if the `gh api graphql` invocation exits nonzero,
`run_gh_graphql` returns `None` and `collect_repo_data` leaves the data
file exactly as it was. -/
theorem claim_C9_confirmed (loads : String → Except String PyJson)
    (dump : PyJson → String) (r : ProcResult) (dataFile : Option String)
    (h : r.exitCode ≠ 0) :
    run_gh_graphql loads r = Except.ok none ∧
    collect_repo_data loads dump r dataFile = Except.ok dataFile := by
  have h1 : run_gh_graphql loads r = Except.ok none := by
    unfold run_gh_graphql
    simp [h]
  refine ⟨h1, ?_⟩
  unfold collect_repo_data
  rw [h1]

/-- C9 witness: the theorem at a concrete failed invocation. -/
theorem claim_C9_witness :
    resW.exitCode ≠ 0 ∧
    (run_gh_graphql loadsW resW = Except.ok none ∧
      collect_repo_data loadsW dumpW resW (some "old") = Except.ok (some "old")) :=
  ⟨by decide, claim_C9_confirmed loadsW dumpW resW (some "old") (by decide)⟩

/-- C10: for a prompt with a non-empty default, a response that is empty
or all-whitespace yields exactly the default, and any other response is
returned stripped of surrounding whitespace. -/
theorem claim_C10_confirmed (d resp : String) (hd : d ≠ "") :
    ((∀ c ∈ resp.data, c.isWhitespace = true) → get_input (some d) resp = d) ∧
    (pyStrip resp ≠ "" → get_input (some d) resp = pyStrip resp) := by
  constructor
  · intro hws
    unfold get_input
    simp [hd, pyStrip_eq_empty hws]
  · intro hne
    unfold get_input
    simp [hd, hne]

/-- C10 witness: the theorem at concrete inputs. -/
theorem claim_C10_witness :
    get_input (some "main") "   " = "main" ∧
    get_input (some "main") " repo1 " = "repo1" :=
  ⟨(claim_C10_confirmed "main" "   " (by decide)).1 (by decide),
   ((claim_C10_confirmed "main" " repo1 " (by decide)).2 (by decide)).trans
     (by decide)⟩

/-- C1 counterexample: a run in which the push of the configured branch
fails, yet the trace contains exactly one push command — no retry against
an alternate branch ever happens — and the workflow still completes
normally instead of surfacing the failure. -/
theorem claim_C1_counterexample :
    (envC1.run Cmd.gitPushOriginMain).exitCode = 1 ∧
    (cmdsOf (mainEvents envC1)).filter
      (fun c => pyIn "git push" (Cmd.render c)) = [Cmd.gitPushOriginMain] ∧
    mainOutcome envC1 = Outcome.completed := by
  refine ⟨rfl, by decide, by decide⟩

/-- C3 counterexample: with a Session whose configured `default_branch`
is `develop`, initialization still runs `git branch -M main` — the
initial branch is the literal `main`, not the configured default branch
from the Session. -/
theorem claim_C3_counterexample :
    (cmdsOf (mainEvents envC3)).filter (fun c => c == Cmd.gitInit) =
      [Cmd.gitInit] ∧
    Cmd.gitBranchMain ∈ cmdsOf (mainEvents envC3) ∧
    Cmd.render Cmd.gitBranchMain = "git branch -M main" ∧
    specSessionDefaultBranch [("default_branch", "develop")] = "develop" ∧
    pyIn "develop" (Cmd.render Cmd.gitBranchMain) = false := by
  refine ⟨by decide, by decide, rfl, rfl, by decide⟩

/-- C3 amended: when no version-control metadata directory exists the
workflow initializes exactly once (`git init` then `git branch -M main`)
and skips initialization otherwise; the initial branch name is the fixed
literal `main`, not a value read from the Session. -/
theorem claim_C3_amended (env : Env) :
    cmdsOf (initRepoStep env) =
      (if env.gitDirExists = true then [] else [Cmd.gitInit, Cmd.gitBranchMain]) ∧
    Cmd.render Cmd.gitBranchMain = "git branch -M main" := by
  refine ⟨?_, rfl⟩
  unfold initRepoStep
  split_ifs with h
  · rfl
  · simp [cmdsOf_append, cmdsOf_runEvs, cmdsOf_cons_logMsg, cmdsOf_nil]

/-- C6 counterexample: with git present but the gh CLI and asciinema
absent, the run attempts package installations (`sudo apt install …`) —
a system mutation, not a mere warning — and the recording step still runs
rather than being disabled; the run completes without error. -/
theorem claim_C6_counterexample :
    cmdOk envC6 Cmd.gitVersion = true ∧
    cmdOk envC6 Cmd.ghVersion = false ∧
    Cmd.installGh true ∈ cmdsOf (mainEvents envC6) ∧
    Cmd.render (Cmd.installGh true) = "sudo apt install gh -y" ∧
    envC6.whichAsciinema = false ∧
    Cmd.installAsciinema true ∈ cmdsOf (mainEvents envC6) ∧
    envC6.asciinemaConfirm = true ∧
    Cmd.asciinemaRec ∈ cmdsOf (mainEvents envC6) ∧
    mainOutcome envC6 = Outcome.completed := by
  refine ⟨rfl, rfl, by decide, rfl, rfl, by decide, rfl, by decide, by decide⟩

/-- C8 counterexample: when a log file from a previous run exists, the
very first effect of the run is deleting it — previously written log
content is destroyed, contradicting "no step of the workflow ever
deletes … previously written log content"; moreover the second effect is
already a log append (the banner) performed before any command has been
executed, so it is not a write by the Command Executor. -/
theorem claim_C8_counterexample :
    envC8.logFileExists = true ∧
    (mainEvents envC8).take 2 =
      [Ev.unlinkLog,
       Ev.logMsg "🔧 GitHub Push Assistant with D3.js & Asciinema"
         (some Color.bold)] := by
  refine ⟨rfl, by decide⟩

/-- C6 amended: a failed git probe aborts the run with exit code 1
having executed nothing but the probe itself; when git is present, the
absence of a soft tool (gh CLI, asciinema, Docker) never ends the
process — a yellow warning is logged and an installation attempt is
made via the system package manager (the dependency step continues,
ending normally whenever the PyYAML import eventually succeeds). -/
theorem claim_C6_amended (env : Env) :
    (cmdOk env Cmd.gitVersion = false →
      (check_and_install_dependencies env).2 = WFlow.exited 1 ∧
      cmdsOf (check_and_install_dependencies env).1 = [Cmd.gitVersion]) ∧
    (cmdOk env Cmd.gitVersion = true →
      ((env.pyYaml0 || env.pyYaml1) = true →
        (check_and_install_dependencies env).2 = WFlow.cont) ∧
      (cmdOk env Cmd.ghVersion = false →
        Cmd.installGh env.whichApt ∈
          cmdsOf (check_and_install_dependencies env).1 ∧
        Ev.logMsg "GitHub CLI not found. Installing..." (some Color.yellow) ∈
          (check_and_install_dependencies env).1) ∧
      (env.whichAsciinema = false →
        Cmd.installAsciinema env.whichApt ∈
          cmdsOf (check_and_install_dependencies env).1) ∧
      (env.whichDocker = false →
        Cmd.installDocker env.whichApt ∈
          cmdsOf (check_and_install_dependencies env).1)) := by
  constructor
  · intro h
    unfold check_and_install_dependencies
    simp only [h]
    refine ⟨rfl, ?_⟩
    simp [cmdsOf_append, cmdsOf_runEvs, cmdsOf_cons_logMsg, cmdsOf_nil]
  · intro h
    unfold check_and_install_dependencies
    simp only [h, if_true]
    refine ⟨?_, ?_, ?_, ?_⟩
    · intro hpy
      unfold pyPart
      rcases Bool.or_eq_true_iff.mp hpy with h0 | h1
      · simp [h0]
      · by_cases h0 : env.pyYaml0 = true <;> simp [h0, h1]
    · intro hgh
      unfold ghPart
      simp [hgh, cmdsOf_append, cmdsOf_runEvs, cmdsOf_cons_logMsg, cmdsOf_nil]
    · intro hasc
      unfold ascPart
      simp [hasc, cmdsOf_append, cmdsOf_runEvs, cmdsOf_cons_logMsg, cmdsOf_nil]
    · intro hdoc
      unfold dockerToolPart
      simp [hdoc, cmdsOf_append, cmdsOf_runEvs, cmdsOf_cons_logMsg, cmdsOf_nil]

/-- C6 witness: the amended theorem applied at the counterexample
environment (git present, gh and asciinema absent) and at a variant
where the git probe fails. -/
theorem claim_C6_witness :
    (cmdOk envGitFail Cmd.gitVersion = false ∧
      ((check_and_install_dependencies envGitFail).2 = WFlow.exited 1 ∧
       cmdsOf (check_and_install_dependencies envGitFail).1 =
        [Cmd.gitVersion])) ∧
    (cmdOk envC6 Cmd.ghVersion = false ∧
      (Cmd.installGh envC6.whichApt ∈
        cmdsOf (check_and_install_dependencies envC6).1 ∧
       Ev.logMsg "GitHub CLI not found. Installing..." (some Color.yellow) ∈
        (check_and_install_dependencies envC6).1)) :=
  ⟨⟨by decide, (claim_C6_amended envGitFail).1 (by decide)⟩,
   ⟨by decide, ((claim_C6_amended envC6).2 (by decide)).2.1 (by decide)⟩⟩

theorem unlink_notin_runEvs (env : Env) (c : Cmd) :
    Ev.unlinkLog ∉ runEvs env c := by
  unfold runEvs runCmdEvents
  split_ifs <;> simp

theorem unlink_notin_saveConfig : Ev.unlinkLog ∉ saveConfigEvents := by
  simp [saveConfigEvents]

theorem unlink_notin_ghPart (env : Env) : Ev.unlinkLog ∉ ghPart env := by
  unfold ghPart
  split_ifs <;> simp [unlink_notin_runEvs]

theorem unlink_notin_ascPart (env : Env) : Ev.unlinkLog ∉ ascPart env := by
  unfold ascPart
  split_ifs <;> simp [unlink_notin_runEvs]

theorem unlink_notin_dockerToolPart (env : Env) :
    Ev.unlinkLog ∉ dockerToolPart env := by
  unfold dockerToolPart
  split_ifs <;> simp [unlink_notin_runEvs]

theorem unlink_notin_pyPart (env : Env) : Ev.unlinkLog ∉ (pyPart env).1 := by
  unfold pyPart
  split_ifs <;> simp [unlink_notin_runEvs]

theorem unlink_notin_deps (env : Env) :
    Ev.unlinkLog ∉ (check_and_install_dependencies env).1 := by
  unfold check_and_install_dependencies
  split_ifs <;>
    simp [unlink_notin_runEvs, unlink_notin_ghPart, unlink_notin_ascPart,
      unlink_notin_dockerToolPart, unlink_notin_pyPart]

theorem unlink_notin_authSeg (env : Env) : Ev.unlinkLog ∉ (authSeg env).1 := by
  unfold authSeg
  split_ifs <;> simp [unlink_notin_runEvs]

theorem unlink_notin_docker_prompt (env : Env) (cfg : List (String × String))
    (p : String) : Ev.unlinkLog ∉ (docker_prompt_and_build env cfg p).1 := by
  unfold docker_prompt_and_build
  split_ifs <;> simp [unlink_notin_runEvs, unlink_notin_saveConfig]

theorem unlink_notin_initRepoStep (env : Env) :
    Ev.unlinkLog ∉ initRepoStep env := by
  unfold initRepoStep
  split_ifs <;> simp [unlink_notin_runEvs]

theorem unlink_notin_d3 (env : Env) (p : String) :
    Ev.unlinkLog ∉ generate_d3_html_events env p := by
  unfold generate_d3_html_events
  simp [unlink_notin_runEvs]

theorem unlink_notin_asciinema (env : Env) :
    Ev.unlinkLog ∉ asciinema_first_run env := by
  unfold asciinema_first_run
  split_ifs <;> simp [unlink_notin_runEvs]

theorem unlink_notin_createFail (ok : Bool) :
    Ev.unlinkLog ∉ createFailEvents ok := by
  unfold createFailEvents
  split_ifs <;> simp

theorem unlink_notin_restSeg (env : Env) (cfg : List (String × String))
    (p : String) : Ev.unlinkLog ∉ restSeg env cfg p := by
  unfold restSeg
  simp [unlink_notin_runEvs, unlink_notin_saveConfig, unlink_notin_d3,
    unlink_notin_asciinema, unlink_notin_createFail]

theorem unlink_notin_postDeps (env : Env) :
    Ev.unlinkLog ∉ (postDeps env).1 := by
  unfold postDeps
  rcases hst : env.store with _ | (_ | cfg) | m <;>
    simp only [load_config, hst, if_true] <;>
    first
    | (split_ifs <;>
        simp [unlink_notin_saveConfig, unlink_notin_docker_prompt,
          unlink_notin_initRepoStep, unlink_notin_authSeg,
          unlink_notin_restSeg])
    | simp

theorem unlink_notin_mainBodyRest (env : Env) :
    Ev.unlinkLog ∉ (mainBodyRest env).1 := by
  unfold mainBodyRest
  rcases hd : (check_and_install_dependencies env).2 <;>
    simp [hd, unlink_notin_deps, unlink_notin_postDeps]

/-- C8 amended: within a run, the log sink is only ever appended to —
with the single exception that `main` begins by deleting any log file
left by a previous run.  The deletion, when it happens, is the very
first effect; no later step deletes or truncates the log. -/
theorem claim_C8_amended (env : Env) :
    List.count Ev.unlinkLog (mainEvents env) =
      (if env.logFileExists = true then 1 else 0) ∧
    Ev.unlinkLog ∉ List.drop 1 (mainEvents env) := by
  have hb : Ev.unlinkLog ∉ (mainBodyRest env).1 := unlink_notin_mainBodyRest env
  have htail : ∃ tail, mainEvents env = unlinkStep env ++ tail ∧
      Ev.unlinkLog ∉ tail := by
    unfold mainEvents mainRun
    rcases hf : (mainBodyRest env).2 with _ | n | m
    · exact ⟨(mainBodyRest env).1, by simp [hf], hb⟩
    · exact ⟨(mainBodyRest env).1, by simp [hf], hb⟩
    · refine ⟨(mainBodyRest env).1 ++
        [Ev.logMsg ("Unexpected error: " ++ m) (some Color.red)],
        by simp [hf], ?_⟩
      simp [hb]
  rcases htail with ⟨tail, heq, htl⟩
  rw [heq]
  constructor
  · rw [List.count_append, List.count_eq_zero.mpr htl]
    unfold unlinkStep
    split_ifs <;> simp
  · unfold unlinkStep
    by_cases hl : env.logFileExists = true
    · simp only [hl, if_true]
      simpa using htl
    · simp only [hl, if_false]
      intro hmem
      exact htl (List.drop_subset 1 tail hmem)

theorem cmdsOf_unlinkStep (env : Env) : cmdsOf (unlinkStep env) = [] := by
  unfold unlinkStep
  split_ifs <;> rfl

theorem push_notin_deps (env : Env) :
    Cmd.gitPushOriginMain ∉ cmdsOf (check_and_install_dependencies env).1 := by
  unfold check_and_install_dependencies ghPart ascPart dockerToolPart pyPart
  split_ifs <;>
    simp [cmdsOf_append, cmdsOf_runEvs, cmdsOf_cons_logMsg, cmdsOf_nil]

theorem push_count_deps (env : Env) :
    List.count Cmd.gitPushOriginMain
      (cmdsOf (check_and_install_dependencies env).1) = 0 :=
  List.count_eq_zero.mpr (push_notin_deps env)

theorem push_notin_saveConfig :
    Cmd.gitPushOriginMain ∉ cmdsOf saveConfigEvents := by
  simp [saveConfigEvents, cmdsOf_cons_writeFile, cmdsOf_cons_logMsg, cmdsOf_nil]

theorem push_count_saveConfig :
    List.count Cmd.gitPushOriginMain (cmdsOf saveConfigEvents) = 0 :=
  List.count_eq_zero.mpr push_notin_saveConfig

theorem push_notin_docker_prompt (env : Env) (cfg : List (String × String))
    (p : String) :
    Cmd.gitPushOriginMain ∉ cmdsOf (docker_prompt_and_build env cfg p).1 := by
  unfold docker_prompt_and_build
  split_ifs <;>
    simp [cmdsOf_append, cmdsOf_runEvs, cmdsOf_cons_logMsg,
      cmdsOf_cons_writeFile, cmdsOf_nil, saveConfigEvents]

theorem push_count_docker_prompt (env : Env) (cfg : List (String × String))
    (p : String) :
    List.count Cmd.gitPushOriginMain
      (cmdsOf (docker_prompt_and_build env cfg p).1) = 0 :=
  List.count_eq_zero.mpr (push_notin_docker_prompt env cfg p)

theorem push_notin_initRepo (env : Env) :
    Cmd.gitPushOriginMain ∉ cmdsOf (initRepoStep env) := by
  unfold initRepoStep
  split_ifs <;>
    simp [cmdsOf_append, cmdsOf_runEvs, cmdsOf_cons_logMsg, cmdsOf_nil]

theorem push_count_initRepo (env : Env) :
    List.count Cmd.gitPushOriginMain (cmdsOf (initRepoStep env)) = 0 :=
  List.count_eq_zero.mpr (push_notin_initRepo env)

theorem push_notin_authSeg (env : Env) :
    Cmd.gitPushOriginMain ∉ cmdsOf (authSeg env).1 := by
  unfold authSeg
  split_ifs <;>
    simp [cmdsOf_append, cmdsOf_runEvs, cmdsOf_cons_logMsg, cmdsOf_nil]

theorem push_count_authSeg (env : Env) :
    List.count Cmd.gitPushOriginMain (cmdsOf (authSeg env).1) = 0 :=
  List.count_eq_zero.mpr (push_notin_authSeg env)

theorem push_notin_createFail (ok : Bool) :
    Cmd.gitPushOriginMain ∉ cmdsOf (createFailEvents ok) := by
  unfold createFailEvents
  split_ifs <;> simp [cmdsOf_cons_logMsg, cmdsOf_nil]

theorem push_count_createFail (ok : Bool) :
    List.count Cmd.gitPushOriginMain (cmdsOf (createFailEvents ok)) = 0 :=
  List.count_eq_zero.mpr (push_notin_createFail ok)

theorem push_count_restSeg (env : Env) (cfg : List (String × String))
    (p : String) :
    List.count Cmd.gitPushOriginMain (cmdsOf (restSeg env cfg p)) = 1 := by
  unfold restSeg generate_d3_html_events asciinema_first_run
  split_ifs <;>
    simp [cmdsOf_append, cmdsOf_runEvs, cmdsOf_cons_logMsg, cmdsOf_nil,
      cmdsOf_cons_writeFile, cmdsOf_cons_mkdir, saveConfigEvents,
      List.count_append, push_count_createFail]

theorem authSeg_snd (env : Env) :
    (authSeg env).2 = (authSeen env || env.authLoginConfirm) := by
  unfold authSeg
  split_ifs with h1 h2 <;> simp_all

theorem deps_flow (env : Env) :
    (check_and_install_dependencies env).2 =
      (if cmdOk env Cmd.gitVersion = true then
        (if (env.pyYaml0 || env.pyYaml1) = true then WFlow.cont
         else WFlow.raised "No module named \x27yaml\x27")
       else WFlow.exited 1) := by
  unfold check_and_install_dependencies pyPart
  by_cases hg : cmdOk env Cmd.gitVersion = true <;>
    by_cases h0 : env.pyYaml0 = true <;>
    by_cases h1 : env.pyYaml1 = true <;>
    simp [hg, h0, h1]

theorem push_count_postDeps (env : Env) :
    List.count Cmd.gitPushOriginMain (cmdsOf (postDeps env).1) =
      if (storeOk env && (authSeg env).2) = true then 1 else 0 := by
  unfold postDeps storeOk
  rcases hst : env.store with _ | (_ | cfg) | m <;>
    simp only [load_config, hst, if_true] <;>
    split_ifs with ha <;>
    simp [ha, cmdsOf_append, List.count_append, cmdsOf_cons_logMsg,
      cmdsOf_nil, push_count_saveConfig, push_count_docker_prompt,
      push_count_initRepo, push_count_authSeg, push_count_restSeg] <;>
    simp_all

/-- C1 amended: the workflow issues the fixed command
`git push origin main` exactly once in every run that reaches the push
step, and never otherwise — in particular a failed push is never
retried, against an alternate branch name or otherwise. -/
theorem claim_C1_amended (env : Env) :
    List.count Cmd.gitPushOriginMain (cmdsOf (mainEvents env)) =
      if reachesPush env = true then 1 else 0 := by
  have hflow := deps_flow env
  have hdep := push_count_deps env
  have hpd := push_count_postDeps env
  unfold mainEvents mainRun mainBodyRest
  by_cases hg : cmdOk env Cmd.gitVersion = true
  · by_cases hp : (env.pyYaml0 || env.pyYaml1) = true
    · have hf : (check_and_install_dependencies env).2 = WFlow.cont := by
        rw [hflow]
        simp [hg, hp]
      simp only [hf]
      rcases hpf : (postDeps env).2 <;>
        simp only [hpf] <;>
        simp [cmdsOf_append, List.count_append, cmdsOf_unlinkStep,
          cmdsOf_cons_logMsg, cmdsOf_nil, hdep, hpd, reachesPush, hg, hp,
          authSeg_snd]
    · have hf : (check_and_install_dependencies env).2 =
          WFlow.raised "No module named \x27yaml\x27" := by
        rw [hflow]
        simp [hg, hp]
      simp only [hf]
      simp [cmdsOf_append, List.count_append, cmdsOf_unlinkStep,
        cmdsOf_cons_logMsg, cmdsOf_nil, hdep, reachesPush, hg, hp]
  · have hf : (check_and_install_dependencies env).2 = WFlow.exited 1 := by
      rw [hflow]
      simp [hg]
    simp only [hf]
    simp [cmdsOf_append, List.count_append, cmdsOf_unlinkStep,
      cmdsOf_cons_logMsg, cmdsOf_nil, hdep, reachesPush, hg]
